import Mathlib

/-!
Shallow embedding of the session manager and scan-submission pipeline of the
react-barcode-scanner repository (mock mode, `USE_MOCK = true` in
`src/services/api.config.ts`), together with the scanner page's UI state
machine.  JavaScript strings are modelled as Lean `String`; `localStorage`
is modelled as a two-slot record (keys `auth_token` and `user_data`);
timestamps (`Date.now()`, `toISOString()`) are explicit parameters.
-/

namespace QrScan

/-- Identity record returned by the auth service (`AuthUser` in
`auth.service.ts`). -/
structure AuthUser where
  id : Nat
  username : String
  email : String
deriving DecidableEq

/-- Mock credential-store record (`MockUser` in `mock.data.ts`). -/
structure MockUser where
  id : Nat
  username : String
  email : String
  password : String
deriving DecidableEq

/-- Contents of the `user_data` slot of `localStorage`.  `json u` stands for
`JSON.stringify` applied to an `AuthUser` record (which `JSON.parse` inverts),
and `corrupt s` stands for a string that is not parseable JSON, on which
`JSON.parse` throws. -/
inductive StoredData where
  | json (u : AuthUser)
  | corrupt (s : String)
deriving DecidableEq

/-- Models `JSON.stringify` on an `AuthUser` (line 74 of `auth.service.ts`). -/
def stringifyUser (u : AuthUser) : StoredData := StoredData.json u

/-- Models `JSON.parse(userData) as AuthUser` inside `try`/`catch`:
`none` when the parse throws. -/
def parseUser : StoredData → Option AuthUser
  | StoredData.json u => some u
  | StoredData.corrupt _ => none

/-- JavaScript falsiness of a stored string: only the empty string is falsy.
A stringified `AuthUser` is never the empty string. -/
def StoredData.falsy : StoredData → Bool
  | StoredData.json _ => false
  | StoredData.corrupt s => s == ""

/-- The persisted client-side storage: the `auth_token` and `user_data`
entries of `localStorage` (keys from `STORAGE_KEYS` in `api.config.ts`).
`none` models an absent key (`getItem` returning `null`). -/
structure Storage where
  authToken : Option String
  userData : Option StoredData
deriving DecidableEq

/-- Models JavaScript `String.prototype.startsWith`: the receiver begins with
the argument, compared code point by code point. -/
def jsStartsWith (s p : String) : Bool := p.data.isPrefixOf s.data

/-- The pre-seeded mock user list of `mock.data.ts` (`demo`/`demo123`). -/
def initialMockUsers : List MockUser :=
  [{ id := 1, username := "demo", email := "demo@example.com", password := "demo123" }]

/-- Credential check of `mock.data.ts` (`validateCredentials`): first user
whose username and password both match, else `null`. -/
def validateCredentials (users : List MockUser) (username password : String) :
    Option MockUser :=
  users.find? (fun u => u.username == username && u.password == password)

/-- Token minting of `mock.data.ts` (`generateMockToken`), with `Date.now()`
passed explicitly. -/
def generateMockToken (userId : Nat) (now : Nat) : String :=
  "mock-jwt-token-" ++ toString userId ++ "-" ++ toString now

/-- Result record of `login` (`LoginResponse` in `auth.service.ts`). -/
structure LoginResponse where
  success : Bool
  token : Option String
  user : Option AuthUser
  error : Option String
deriving DecidableEq

/-- Mock-mode `login` of `auth.service.ts` (lines 60-87): validates the
credentials against the mock store; on success mints a token and writes both
storage entries, on failure returns an error and leaves storage untouched. -/
def login (users : List MockUser) (storage : Storage) (username password : String)
    (now : Nat) : LoginResponse × Storage :=
  match validateCredentials users username password with
  | some user =>
      let token := generateMockToken user.id now
      let authUser : AuthUser := { id := user.id, username := user.username, email := user.email }
      ({ success := true, token := some token, user := some authUser, error := none },
       { authToken := some token, userData := some (stringifyUser authUser) })
  | none =>
      ({ success := false, token := none, user := none,
         error := some "Invalid username or password" }, storage)

/-- Result record of `validateToken` (`ValidateResponse` in `auth.service.ts`). -/
structure ValidateResponse where
  valid : Bool
  user : Option AuthUser
deriving DecidableEq

/-- Mock-mode `validateToken` of `auth.service.ts` (lines 193-214), with a
trace flag recording whether execution went past the absent-entry guard into
the validation step (the simulated collaborator region).  The guard
`if (!token || !userData)` treats `null` and the empty string as absent. -/
def validateTokenT (storage : Storage) : ValidateResponse × Bool :=
  match storage.authToken, storage.userData with
  | some token, some d =>
      if token == "" || d.falsy then ({ valid := false, user := none }, false)
      else if jsStartsWith token "mock-jwt-token-" then
        match parseUser d with
        | some u => ({ valid := true, user := some u }, true)
        | none => ({ valid := false, user := none }, true)
      else ({ valid := false, user := none }, true)
  | _, _ => ({ valid := false, user := none }, false)

/-- Mock-mode `validateToken`, result part. -/
def validateToken (storage : Storage) : ValidateResponse :=
  (validateTokenT storage).1

/-- The `logout` of `auth.service.ts` (lines 241-244): removes both storage
entries unconditionally and returns nothing. -/
def logout (_ : Storage) : Storage :=
  { authToken := none, userData := none }

/-- The `getCurrentUser` of `auth.service.ts` (lines 256-266): reads the
`user_data` entry; on a truthy value tries to parse it, returning `null`
when the entry is absent, falsy, or unparseable. -/
def getCurrentUser (storage : Storage) : Option AuthUser :=
  match storage.userData with
  | some d => if d.falsy then none else parseUser d
  | none => none

/-- Ledger entry (`ScannedCode` in `mock.data.ts`). -/
structure ScannedCode where
  id : String
  data : String
  scannedAt : String
  userId : Nat
deriving DecidableEq

/-- The in-memory scan ledger of `mock.data.ts`: the `scannedCodes` array
plus the `scanIdCounter` counter. -/
structure Ledger where
  scannedCodes : List ScannedCode
  scanIdCounter : Nat
deriving DecidableEq

/-- The `isCodeAlreadyScanned` of `mock.data.ts`: membership by the `data`
field alone, ignoring the owner. -/
def isCodeAlreadyScanned (l : Ledger) (data : String) : Bool :=
  l.scannedCodes.any (fun code => code.data == data)

/-- The `addScannedCode` of `mock.data.ts`: bumps the counter, appends a new
record, and returns it, with `toISOString()` passed explicitly. -/
def addScannedCode (l : Ledger) (data : String) (userId : Nat) (nowIso : String) :
    ScannedCode × Ledger :=
  let ctr := l.scanIdCounter + 1
  let newScan : ScannedCode :=
    { id := "scan-" ++ toString ctr, data := data, scannedAt := nowIso, userId := userId }
  (newScan, { scannedCodes := l.scannedCodes ++ [newScan], scanIdCounter := ctr })

/-- Result record of `submitScan` (`ScanSubmitResponse` in
`scanner.service.ts`). -/
structure ScanSubmitResponse where
  success : Bool
  duplicate : Option Bool
  message : Option String
  scanId : Option String
  error : Option String
deriving DecidableEq

/-- Mock-mode `submitScan` of `scanner.service.ts` (lines 320-351): requires
a current user read from storage at call time, then does the duplicate check
and, only when the code is new, the single insert.  Storage is only read,
never written. -/
def submitScan (storage : Storage) (l : Ledger) (scannedData : String)
    (nowIso : String) : ScanSubmitResponse × Ledger :=
  match getCurrentUser storage with
  | none =>
      ({ success := false, duplicate := none, message := none, scanId := none,
         error := some "User not authenticated" }, l)
  | some user =>
      if isCodeAlreadyScanned l scannedData then
        ({ success := false, duplicate := some true,
           message := some "This QR code has already been scanned",
           scanId := none, error := none }, l)
      else
        let res := addScannedCode l scannedData user.id nowIso
        ({ success := true, duplicate := none,
           message := some "QR code scanned successfully",
           scanId := some res.1.id, error := none }, res.2)

/-- The response `submitScan` returns when no current user is present. -/
def notAuthResponse : ScanSubmitResponse :=
  { success := false, duplicate := none, message := none, scanId := none,
    error := some "User not authenticated" }

/-- The response `submitScan` returns on a duplicate code. -/
def dupResponse : ScanSubmitResponse :=
  { success := false, duplicate := some true,
    message := some "This QR code has already been scanned",
    scanId := none, error := none }

/-- The response `submitScan` returns on an accepted code, whose id embeds
the bumped counter value. -/
def acceptedResponse (ctr : Nat) : ScanSubmitResponse :=
  { success := true, duplicate := none,
    message := some "QR code scanned successfully",
    scanId := some ("scan-" ++ toString ctr), error := none }

/-- The `ScanState` union of the scanner page (`Scanner.tsx`). -/
inductive ScanState where
  | scanning
  | processing
  | success
  | duplicate
  | error
deriving DecidableEq

/-- The `ScanResult` payload attached to terminal states (`Scanner.tsx`). -/
structure ScanResult where
  data : String
  message : String
deriving DecidableEq

/-- The reactive state of the scanner page: `scanState`, `scanResult`,
`stopStream`, `cameraError` and `snackbarOpen` (`Scanner.tsx`). -/
structure ScannerState where
  scanState : ScanState
  scanResult : Option ScanResult
  stopStream : Bool
  cameraError : Option String
  snackbarOpen : Bool
deriving DecidableEq

/-- The state the scanner page mounts with. -/
def initialScannerState : ScannerState :=
  { scanState := ScanState.scanning, scanResult := none, stopStream := false,
    cameraError := none, snackbarOpen := false }

/-- Big-step model of `handleScanUpdate` in `Scanner.tsx` (lines 198-244):
one camera callback delivery, run to completion including the awaited
`submitScan`.  The event carries `result.getText()` when a decode result is
present.  The third component counts how many `submitScan` calls the handler
made.  The guard reads the machine's scan state at delivery time; when it is
not `scanning` the handler returns at once. -/
def handleScanUpdate (st : ScannerState) (storage : Storage) (l : Ledger)
    (event : Option String) (nowIso : String) : ScannerState × Ledger × Nat :=
  if st.scanState ≠ ScanState.scanning then (st, l, 0)
  else
    match event with
    | none => (st, l, 0)
    | some scannedData =>
        let st1 : ScannerState := { st with stopStream := true, scanState := ScanState.processing }
        let res := submitScan storage l scannedData nowIso
        let response := res.1
        let okResult : ScanResult :=
          { data := scannedData, message := response.message.getD "Scan submitted successfully!" }
        let dupResult : ScanResult :=
          { data := scannedData, message := response.message.getD "This code has already been scanned" }
        let errResult : ScanResult :=
          { data := scannedData, message := response.error.getD "Failed to submit scan" }
        let st2 : ScannerState :=
          if response.success then
            { st1 with scanState := ScanState.success, scanResult := some okResult }
          else if response.duplicate.getD false then
            { st1 with scanState := ScanState.duplicate, scanResult := some dupResult }
          else
            { st1 with scanState := ScanState.error, scanResult := some errResult }
        ({ st2 with snackbarOpen := true }, res.2, 1)

/-- The `handleScanAnother` of `Scanner.tsx` (lines 259-264): the
user-initiated reset back to `scanning`. -/
def handleScanAnother (st : ScannerState) : ScannerState :=
  { st with scanState := ScanState.scanning, scanResult := none,
            stopStream := false, cameraError := none }

/-- One session-manager operation against the persisted storage.  Mock-mode
`validateToken` and `submitScan` only read storage, so `validateOp` and
`submitOp` leave it unchanged; `login` and `logout` are the only writers. -/
inductive AuthOp where
  | loginOp (username password : String) (now : Nat)
  | logoutOp
  | validateOp
  | submitOp (code : String)
deriving DecidableEq

/-- Effect of one operation on the persisted storage.  Each operation's
synchronous storage access is one atomic step of the single-threaded event
loop: `login` commits its two `setItem` calls with no suspension point
between them, and `validateToken` reads both entries before its first
suspension point. -/
def applyOp (users : List MockUser) (s : Storage) : AuthOp → Storage
  | AuthOp.loginOp username password now => (login users s username password now).2
  | AuthOp.logoutOp => logout s
  | AuthOp.validateOp => s
  | AuthOp.submitOp _ => s

/-- Storage reached from `s` by a sequence of session-manager operations. -/
def runOps (users : List MockUser) (s : Storage) (ops : List AuthOp) : Storage :=
  ops.foldl (applyOp users) s

/-- A storage state holds either no session data at all or one matched
token/identity pair minted by a single successful login for a user of the
credential store. -/
def SessionConsistent (users : List MockUser) (s : Storage) : Prop :=
  (s.authToken = none ∧ s.userData = none) ∨
  (∃ mu now, mu ∈ users ∧
    s.authToken = some (generateMockToken mu.id now) ∧
    s.userData = some (stringifyUser
      { id := mu.id, username := mu.username, email := mu.email }))

/-- Sequence of `submitScan` calls, all with the same code; each call brings
its own storage (its caller's session) and timestamp. -/
def submitSeq (code : String) : Ledger → List (Storage × String) →
    List ScanSubmitResponse × Ledger
  | l, [] => ([], l)
  | l, call :: rest =>
      let res := submitScan call.1 l code call.2
      let tl := submitSeq code res.2 rest
      (res.1 :: tl.1, tl.2)

/-- Whether the credential store contains a user matching an identity on
every field (models what the collaborator could recognize an identity by). -/
def recognizedByStore (users : List MockUser) (u : AuthUser) : Bool :=
  users.any (fun m => m.id == u.id && m.username == u.username && m.email == u.email)

/-- Storage with both entries absent (fresh browser profile). -/
def emptyStorage : Storage := { authToken := none, userData := none }

/-- The empty ledger the mock module starts with. -/
def emptyLedger : Ledger := { scannedCodes := [], scanIdCounter := 0 }

/-- Storage persisted by a successful demo login at time 0. -/
def demoStorage : Storage :=
  (login initialMockUsers emptyStorage "demo" "demo123" 0).2

/-- An identity that the credential store does not contain. -/
def ghostUser : AuthUser := { id := 999, username := "ghost", email := "ghost@example.com" }

/-- Storage carrying a token of the right shape together with an identity
unknown to the credential store. -/
def ghostStorage : Storage :=
  { authToken := some "mock-jwt-token-999-0", userData := some (stringifyUser ghostUser) }

/-- Storage whose `user_data` entry is present but not parseable JSON. -/
def corruptStorage : Storage :=
  { authToken := some "mock-jwt-token-1-0", userData := some (StoredData.corrupt "not json") }

end QrScan

namespace QrScan

/-! ## Helper lemmas -/

theorem submitScan_none (s : Storage) (l : Ledger) (c t : String)
    (h : getCurrentUser s = none) : submitScan s l c t = (notAuthResponse, l) := by
  simp [submitScan, h, notAuthResponse]

theorem submitScan_dup (s : Storage) (l : Ledger) (c t : String) (u : AuthUser)
    (hu : getCurrentUser s = some u) (hd : isCodeAlreadyScanned l c = true) :
    submitScan s l c t = (dupResponse, l) := by
  simp [submitScan, hu, hd, dupResponse]

theorem submitScan_accept (s : Storage) (l : Ledger) (c t : String) (u : AuthUser)
    (hu : getCurrentUser s = some u) (hd : isCodeAlreadyScanned l c = false) :
    submitScan s l c t =
      (acceptedResponse (l.scanIdCounter + 1),
       { scannedCodes := l.scannedCodes ++
           [{ id := "scan-" ++ toString (l.scanIdCounter + 1), data := c,
              scannedAt := t, userId := u.id }],
         scanIdCounter := l.scanIdCounter + 1 }) := by
  simp [submitScan, hu, hd, addScannedCode, acceptedResponse]

theorem submitSeq_dup_all (c : String) (l : Ledger) (calls : List (Storage × String))
    (hauth : ∀ call ∈ calls, (getCurrentUser call.1).isSome = true)
    (hdup : isCodeAlreadyScanned l c = true) :
    submitSeq c l calls = (calls.map (fun _ => dupResponse), l) := by
  induction calls with
  | nil => simp [submitSeq]
  | cons call rest ih =>
      obtain ⟨u, hu⟩ := Option.isSome_iff_exists.mp (hauth call (by simp))
      have hstep := submitScan_dup call.1 l c call.2 u hu hdup
      have hrest := ih (fun x hx => hauth x (by simp [hx]))
      simp [submitSeq, hstep, hrest]

theorem generateMockToken_ne_empty (uid now : Nat) :
    (generateMockToken uid now == "") = false := by
  apply beq_eq_false_iff_ne.mpr
  intro h
  have hdata : (generateMockToken uid now).data = [] := by rw [h]
  rw [generateMockToken] at hdata
  simp at hdata

theorem generateMockToken_starts (uid now : Nat) :
    jsStartsWith (generateMockToken uid now) "mock-jwt-token-" = true := by
  rw [jsStartsWith, generateMockToken]
  simp only [String.data_append]
  rw [List.isPrefixOf_iff_prefix]
  exact List.prefix_append _ _

theorem submitScan_nodup (s : Storage) (l : Ledger) (c t : String)
    (h : (l.scannedCodes.map fun sc => sc.data).Nodup) :
    ((submitScan s l c t).2.scannedCodes.map fun sc => sc.data).Nodup := by
  cases hu : getCurrentUser s with
  | none => rw [submitScan_none s l c t hu]; exact h
  | some u =>
      cases hd : isCodeAlreadyScanned l c with
      | true => rw [submitScan_dup s l c t u hu hd]; exact h
      | false =>
          rw [submitScan_accept s l c t u hu hd]
          have habs : ∀ sc ∈ l.scannedCodes, ¬ sc.data = c := by
            simpa [isCodeAlreadyScanned] using hd
          simp [List.nodup_append, h, List.disjoint_left]
          intro x hx hcx
          exact habs x hx hcx

theorem login_none (users : List MockUser) (s : Storage) (username password : String)
    (now : Nat) (h : validateCredentials users username password = none) :
    login users s username password now =
      ({ success := false, token := none, user := none,
         error := some "Invalid username or password" }, s) := by
  simp [login, h]

theorem login_some (users : List MockUser) (s : Storage) (username password : String)
    (now : Nat) (mu : MockUser)
    (h : validateCredentials users username password = some mu) :
    login users s username password now =
      ({ success := true, token := some (generateMockToken mu.id now),
         user := some { id := mu.id, username := mu.username, email := mu.email },
         error := none },
       { authToken := some (generateMockToken mu.id now),
         userData := some (stringifyUser
           { id := mu.id, username := mu.username, email := mu.email }) }) := by
  simp [login, h]

theorem applyOp_consistent (users : List MockUser) (s : Storage) (op : AuthOp)
    (h : SessionConsistent users s) : SessionConsistent users (applyOp users s op) := by
  cases op with
  | loginOp username password now =>
      simp only [applyOp]
      cases hv : validateCredentials users username password with
      | none => rw [login_none users s username password now hv]; exact h
      | some mu =>
          rw [login_some users s username password now mu hv]
          have hmem : mu ∈ users := by
            unfold validateCredentials at hv
            exact List.mem_of_find?_eq_some hv
          exact Or.inr ⟨mu, now, hmem, rfl, rfl⟩
  | logoutOp => exact Or.inl ⟨rfl, rfl⟩
  | validateOp => exact h
  | submitOp code => exact h

theorem runOps_consistent (users : List MockUser) (s : Storage) (ops : List AuthOp)
    (h : SessionConsistent users s) : SessionConsistent users (runOps users s ops) := by
  induction ops generalizing s with
  | nil => exact h
  | cons op rest ih => exact ih (applyOp users s op) (applyOp_consistent users s op h)

/-! ## Claim theorems -/

/-- C5: every `submitScan` call performs at most one ledger mutation attempt —
no ledger change at all when there is no current session identity at call
time (`NotAuthenticated`) or when the code is a duplicate, and exactly one
appended record when the outcome is accepted; the call writes nothing else
(its storage argument is only read). -/
theorem submitScan_single_mutation (s : Storage) (l : Ledger) (c t : String) :
    (getCurrentUser s = none → submitScan s l c t = (notAuthResponse, l)) ∧
    (∀ u, getCurrentUser s = some u → isCodeAlreadyScanned l c = true →
        submitScan s l c t = (dupResponse, l)) ∧
    (∀ u, getCurrentUser s = some u → isCodeAlreadyScanned l c = false →
        submitScan s l c t =
          (acceptedResponse (l.scanIdCounter + 1),
           { scannedCodes := l.scannedCodes ++
               [{ id := "scan-" ++ toString (l.scanIdCounter + 1), data := c,
                  scannedAt := t, userId := u.id }],
             scanIdCounter := l.scanIdCounter + 1 })) :=
  ⟨fun h => submitScan_none s l c t h,
   fun u hu hd => submitScan_dup s l c t u hu hd,
   fun u hu hd => submitScan_accept s l c t u hu hd⟩

/-- Witness for C5 at concrete inputs: an unauthenticated storage leaves the
empty ledger unchanged and reports the not-authenticated error. -/
theorem submitScan_single_mutation_witness :
    getCurrentUser emptyStorage = none ∧
    submitScan emptyStorage emptyLedger "CODE-1" "t0" = (notAuthResponse, emptyLedger) :=
  ⟨rfl, (submitScan_single_mutation emptyStorage emptyLedger "CODE-1" "t0").1 rfl⟩

/-- C7: a login with credentials the store does not recognize returns the
invalid-credentials failure and leaves both persisted entries exactly as
they were. -/
theorem login_failure_preserves_storage (users : List MockUser) (s : Storage)
    (username password : String) (now : Nat)
    (h : validateCredentials users username password = none) :
    login users s username password now =
      ({ success := false, token := none, user := none,
         error := some "Invalid username or password" }, s) := by
  simp [login, h]

/-- Witness for C7: `demo`/`wrongpass` against the seeded store, starting
from the demo session's storage. -/
theorem login_failure_preserves_storage_witness :
    validateCredentials initialMockUsers "demo" "wrongpass" = none ∧
    login initialMockUsers demoStorage "demo" "wrongpass" 7 =
      ({ success := false, token := none, user := none,
         error := some "Invalid username or password" }, demoStorage) :=
  ⟨by decide, login_failure_preserves_storage initialMockUsers demoStorage
      "demo" "wrongpass" 7 (by decide)⟩

/-- C8: when the persisted token entry or the persisted identity entry is
absent, `validateToken` returns not valid with no user, without reaching the
validation step (trace flag `false`). -/
theorem validateToken_absent_noSession (s : Storage)
    (h : s.authToken = none ∨ s.userData = none) :
    validateTokenT s = ({ valid := false, user := none }, false) ∧
    validateToken s = { valid := false, user := none } := by
  obtain ⟨a, d⟩ := s
  rcases h with h | h
  all_goals simp only at h
  all_goals subst h
  · cases d <;> simp [validateTokenT, validateToken]
  · cases a <;> simp [validateTokenT, validateToken]

/-- Witness for C8 at the fresh-profile storage. -/
theorem validateToken_absent_noSession_witness :
    (emptyStorage.authToken = none ∨ emptyStorage.userData = none) ∧
    validateTokenT emptyStorage = ({ valid := false, user := none }, false) :=
  ⟨Or.inl rfl, (validateToken_absent_noSession emptyStorage (Or.inl rfl)).1⟩

/-- C9: `logout` is total, leaves both persisted entries absent, and is
idempotent — a second call produces the same storage as the first. -/
theorem logout_idempotent (s : Storage) :
    (logout s).authToken = none ∧ (logout s).userData = none ∧
    logout (logout s) = logout s := by
  simp [logout]

/-- C10: a persisted identity entry that is not parseable JSON is treated
exactly like an absent session: `getCurrentUser` returns no user,
`validateToken` reports not valid, and `submitScan` fails with the
not-authenticated error touching no ledger state; all three are total. -/
theorem corrupt_userData_total (s : Storage) (str : String)
    (h : s.userData = some (StoredData.corrupt str)) :
    getCurrentUser s = none ∧
    validateToken s = { valid := false, user := none } ∧
    (∀ l c t, submitScan s l c t = (notAuthResponse, l)) := by
  obtain ⟨a, d⟩ := s
  simp only at h
  subst h
  refine ⟨?_, ?_, ?_⟩
  · simp [getCurrentUser, parseUser, StoredData.falsy]
  · cases a with
    | none => simp [validateToken, validateTokenT]
    | some token =>
        simp only [validateToken, validateTokenT, parseUser, StoredData.falsy]
        by_cases h1 : (token == "" || (str == "")) = true
        · simp [h1]
        · simp [h1]
  · intro l c t
    apply submitScan_none
    simp [getCurrentUser, parseUser, StoredData.falsy]

/-- Witness for C10 at a storage with a well-shaped token and an
unparseable identity entry. -/
theorem corrupt_userData_total_witness :
    corruptStorage.userData = some (StoredData.corrupt "not json") ∧
    getCurrentUser corruptStorage = none ∧
    validateToken corruptStorage = { valid := false, user := none } :=
  ⟨rfl,
   (corrupt_userData_total corruptStorage "not json" rfl).1,
   (corrupt_userData_total corruptStorage "not json" rfl).2.1⟩

/-- C2: a decoded-text event delivered while the scan state machine is not in
`scanning` (it is `processing` or a terminal state) is discarded — the state,
the ledger and the submit-call count are untouched — and the user-initiated
"scan another" action is what returns the machine to `scanning`. -/
theorem scan_update_reentrancy_guard (st : ScannerState) (storage : Storage)
    (l : Ledger) (event : Option String) (t : String)
    (h : st.scanState ≠ ScanState.scanning) :
    handleScanUpdate st storage l event t = (st, l, 0) ∧
    (handleScanAnother st).scanState = ScanState.scanning := by
  constructor
  · simp [handleScanUpdate, h]
  · simp [handleScanAnother]

/-- Witness for C2: an event arriving in the `processing` state is dropped. -/
theorem scan_update_reentrancy_guard_witness :
    ({ initialScannerState with scanState := ScanState.processing } : ScannerState).scanState ≠
        ScanState.scanning ∧
    handleScanUpdate { initialScannerState with scanState := ScanState.processing }
        demoStorage emptyLedger (some "CODE-1") "t0" =
      ({ initialScannerState with scanState := ScanState.processing }, emptyLedger, 0) :=
  ⟨by decide,
   (scan_update_reentrancy_guard
      { initialScannerState with scanState := ScanState.processing }
      demoStorage emptyLedger (some "CODE-1") "t0" (by decide)).1⟩

/-- C4: whenever a login succeeds (the credential store recognizes the pair,
as it does `demo`/`demo123`), `validateToken` run over the persisted storage
reports the session valid with exactly the identity the login returned. -/
theorem login_validateToken_round_trip (users : List MockUser) (s : Storage)
    (username password : String) (now : Nat) (mu : MockUser)
    (h : validateCredentials users username password = some mu) :
    (login users s username password now).1.success = true ∧
    (login users s username password now).1.user =
      some { id := mu.id, username := mu.username, email := mu.email } ∧
    validateToken (login users s username password now).2 =
      { valid := true,
        user := some { id := mu.id, username := mu.username, email := mu.email } } := by
  rw [login_some users s username password now mu h]
  refine ⟨rfl, rfl, ?_⟩
  simp [validateToken, validateTokenT, generateMockToken_ne_empty,
        generateMockToken_starts, stringifyUser, StoredData.falsy, parseUser]

/-- Witness for C4: the demo login at time 0 round-trips through
`validateToken` with the demo identity. -/
theorem login_validateToken_round_trip_witness :
    validateCredentials initialMockUsers "demo" "demo123" =
      some { id := 1, username := "demo", email := "demo@example.com", password := "demo123" } ∧
    (login initialMockUsers emptyStorage "demo" "demo123" 0).1.success = true ∧
    validateToken (login initialMockUsers emptyStorage "demo" "demo123" 0).2 =
      { valid := true,
        user := some { id := 1, username := "demo", email := "demo@example.com" } } :=
  ⟨by decide,
   (login_validateToken_round_trip initialMockUsers emptyStorage "demo" "demo123" 0
      { id := 1, username := "demo", email := "demo@example.com", password := "demo123" }
      (by decide)).1,
   (login_validateToken_round_trip initialMockUsers emptyStorage "demo" "demo123" 0
      { id := 1, username := "demo", email := "demo@example.com", password := "demo123" }
      (by decide)).2.2⟩

/-- C6: storage reachable from the empty profile under any sequence of
session operations holds at most one session — either no session data at all
or one matched token/identity pair minted together by a single successful
login for a store user — and a successful login overwrites whatever was
persisted before with exactly that pair, so no state observable to
`validateToken` pairs a token with a missing or stale identity. -/
theorem session_storage_consistent (users : List MockUser) (ops : List AuthOp) :
    SessionConsistent users (runOps users emptyStorage ops) ∧
    (∀ s username password now mu,
       validateCredentials users username password = some mu →
       (login users s username password now).2 =
         { authToken := some (generateMockToken mu.id now),
           userData := some (stringifyUser
             { id := mu.id, username := mu.username, email := mu.email }) }) := by
  constructor
  · exact runOps_consistent users emptyStorage ops (Or.inl ⟨rfl, rfl⟩)
  · intro s username password now mu h
    rw [login_some users s username password now mu h]

/-- Witness for C6: a successful demo login over a previously corrupt
storage leaves exactly the freshly minted pair. -/
theorem session_storage_consistent_witness :
    validateCredentials initialMockUsers "demo" "demo123" =
      some { id := 1, username := "demo", email := "demo@example.com", password := "demo123" } ∧
    (login initialMockUsers corruptStorage "demo" "demo123" 0).2 =
      { authToken := some (generateMockToken 1 0),
        userData := some (stringifyUser
          { id := 1, username := "demo", email := "demo@example.com" }) } :=
  ⟨by decide,
   (session_storage_consistent initialMockUsers []).2 corruptStorage "demo" "demo123" 0
      { id := 1, username := "demo", email := "demo@example.com", password := "demo123" }
      (by decide)⟩

/-- C1: over any nonempty sequence of authenticated `submitScan` calls with
the same code, starting from a ledger not containing it, exactly one call
succeeds, the first one, and every later call returns the duplicate response;
exactly one record is inserted over the whole sequence; and one `submitScan`
step (for any caller, code and ledger) preserves pairwise distinctness of the
recorded code values regardless of owners. -/
theorem submitScan_global_uniqueness (calls : List (Storage × String)) (l : Ledger)
    (c : String) (hne : calls ≠ [])
    (hauth : ∀ call ∈ calls, (getCurrentUser call.1).isSome = true)
    (habs : isCodeAlreadyScanned l c = false) :
    ((submitSeq c l calls).1.countP (fun r => r.success) = 1) ∧
    (∀ r, (submitSeq c l calls).1.head? = some r → r.success = true) ∧
    (∀ r ∈ (submitSeq c l calls).1.tail, r = dupResponse) ∧
    ((submitSeq c l calls).2.scannedCodes.length = l.scannedCodes.length + 1) ∧
    (∀ s' l' c' t', ((l'.scannedCodes.map fun sc => sc.data).Nodup →
        (((submitScan s' l' c' t').2.scannedCodes.map fun sc => sc.data).Nodup))) := by
  obtain ⟨call, rest, rfl⟩ : ∃ call rest, calls = call :: rest := by
    cases calls with
    | nil => exact absurd rfl hne
    | cons a b => exact ⟨a, b, rfl⟩
  obtain ⟨u, hu⟩ := Option.isSome_iff_exists.mp (hauth call (by simp))
  have hstep := submitScan_accept call.1 l c call.2 u hu habs
  have hscan1 : isCodeAlreadyScanned
      { scannedCodes := l.scannedCodes ++
          [{ id := "scan-" ++ toString (l.scanIdCounter + 1), data := c,
             scannedAt := call.2, userId := u.id }],
        scanIdCounter := l.scanIdCounter + 1 } c = true := by
    simp [isCodeAlreadyScanned]
  have hrest := submitSeq_dup_all c _ rest (fun x hx => hauth x (by simp [hx])) hscan1
  have hseq : submitSeq c l (call :: rest) =
      (acceptedResponse (l.scanIdCounter + 1) :: rest.map (fun _ => dupResponse),
       { scannedCodes := l.scannedCodes ++
           [{ id := "scan-" ++ toString (l.scanIdCounter + 1), data := c,
              scannedAt := call.2, userId := u.id }],
         scanIdCounter := l.scanIdCounter + 1 }) := by
    simp [submitSeq, hstep, hrest]
  refine ⟨?_, ?_, ?_, ?_, ?_⟩
  · rw [hseq]
    simp [List.countP_cons, acceptedResponse, dupResponse, List.countP_map, Function.comp]
  · intro r hr
    rw [hseq] at hr
    simp only [List.head?_cons, Option.some.injEq] at hr
    rw [← hr]
    rfl
  · intro r hr
    rw [hseq] at hr
    simp only [List.tail_cons, List.mem_map] at hr
    obtain ⟨x, _, hx⟩ := hr
    exact hx.symm
  · rw [hseq]
    simp
  · exact fun s' l' c' t' h => submitScan_nodup s' l' c' t' h

/-- Witness for C1: two demo-authenticated submissions of `CODE-1` against
the empty ledger yield exactly one success. -/
theorem submitScan_global_uniqueness_witness :
    (∀ call ∈ ([(demoStorage, "t0"), (demoStorage, "t1")] : List (Storage × String)),
        (getCurrentUser call.1).isSome = true) ∧
    isCodeAlreadyScanned emptyLedger "CODE-1" = false ∧
    (submitSeq "CODE-1" emptyLedger [(demoStorage, "t0"), (demoStorage, "t1")]).1.countP
        (fun r => r.success) = 1 :=
  ⟨by decide, by decide,
   (submitScan_global_uniqueness [(demoStorage, "t0"), (demoStorage, "t1")] emptyLedger
      "CODE-1" (by simp) (by decide) (by decide)).1⟩

/-- C3 counterexample: a storage holding a token of the right local shape for
an identity the credential store has never issued is reported valid, so
validity is inferred from local token shape alone, not from what the
collaborator currently recognizes. -/
theorem validateToken_shape_only_counterexample :
    (validateToken ghostStorage).valid = true ∧
    (validateToken ghostStorage).user = some ghostUser ∧
    recognizedByStore initialMockUsers ghostUser = false := by
  decide

/-- C3 amended: in mock mode `validateToken` decides validity from the
persisted local state alone — it reports valid exactly when a non-empty
token starting with `mock-jwt-token-` and a parseable identity are persisted,
returning that identity, with no check against the credential store. -/
theorem validateToken_local_characterization (s : Storage) :
    (validateToken s).valid = true ↔
      ∃ token u, s.authToken = some token ∧ token ≠ "" ∧
        jsStartsWith token "mock-jwt-token-" = true ∧
        s.userData = some (stringifyUser u) ∧
        (validateToken s).user = some u := by
  obtain ⟨a, d⟩ := s
  cases a with
  | none => simp [validateToken, validateTokenT]
  | some token =>
      cases d with
      | none => simp [validateToken, validateTokenT]
      | some sd =>
          cases sd with
          | json u =>
              by_cases h0 : token = ""
              · subst h0
                simp [validateToken, validateTokenT, StoredData.falsy]
              · have hb : (token == "") = false := beq_eq_false_iff_ne.mpr h0
                by_cases hp : jsStartsWith token "mock-jwt-token-" = true
                · simp [validateToken, validateTokenT, StoredData.falsy, parseUser,
                        stringifyUser, hb, hp, h0]
                · simp [validateToken, validateTokenT, StoredData.falsy, parseUser,
                        stringifyUser, hb, hp, h0]
          | corrupt str =>
              by_cases h1 : (token == "" || (str == "")) = true
              · simp [validateToken, validateTokenT, StoredData.falsy, parseUser,
                      stringifyUser, h1]
              · simp only [Bool.or_eq_true, not_or] at h1
                simp [validateToken, validateTokenT, StoredData.falsy, parseUser,
                      stringifyUser, h1.1, h1.2]

end QrScan
